import Mathlib

/-!
Shallow embedding of `app.py` (insta-Analyzer): the secrets resolver
(`SecretsManager`), the post retrieval service (`InstagramAnalytics`), the
content classifier, and the session bookmark store, together with theorems
checking the repository specification against this embedding.
-/

namespace InstaAnalyzer

/-! ## Secrets resolver (`SecretsManager`, app.py lines 134-242) -/

/-- The five logical credential keys handled by `SecretsManager.load_secrets`. -/
inductive SecretKey where
  | apify_token
  | gemini_api_key
  | instagram_session_id
  | proxy_url
  | openai_api_key
deriving DecidableEq, Repr

/-- The four credential sources consulted by `load_secrets`, in priority order.
`streamlitSecrets = none` models the `except: pass` around the `st.secrets`
access; when present, `st.secrets.get(KEY, "")` yields a string (possibly
empty) for each of the five keys.  `envVars k` models `os.getenv(KEY, "")`
(empty string when unset).  `secretsFile = none` models a missing or
unparsable `.streamlit/secrets.toml`; when present, `some f` gives for each
of the five upper-case keys the value if the key is in the parsed table
(`key in secrets_data`), `none` if absent.  `configFile = none` models a
missing or unparsable `config.yaml`; when present, `f k` is the value of the
key in the `api_keys` section, with `""` for an absent key (the code guards
every config write with `if value`, so an absent key and an empty value are
indistinguishable). -/
structure SecretSources where
  streamlitSecrets : Option (SecretKey → String)
  envVars : SecretKey → String
  secretsFile : Option (SecretKey → Option String)
  configFile : Option (SecretKey → String)

/-- Priority 1 of `load_secrets` (app.py lines 146-156): when the
`st.secrets` access succeeds, `self.api_keys.update({...})` sets every key
unconditionally (possibly to `""`); on exception nothing is set. -/
def loadStage1 (src : SecretSources) : SecretKey → String :=
  match src.streamlitSecrets with
  | some f => f
  | none => fun _ => ""

/-- Priority 2 of `load_secrets` (app.py lines 158-170): an environment
value is taken only `if value and not self.api_keys.get(key)`. -/
def loadStage2 (src : SecretSources) (k : SecretKey) : String :=
  if src.envVars k ≠ "" ∧ loadStage1 src k = "" then src.envVars k else loadStage1 src k

/-- Priority 3 of `load_secrets` (app.py lines 172-182): a secrets-file
value is taken only `if key in secrets_data and not
self.api_keys.get(key.lower())` — the value itself is not tested for
emptiness. -/
def loadStage3 (src : SecretSources) (k : SecretKey) : String :=
  match src.secretsFile with
  | some f =>
    match f k with
    | some v => if loadStage2 src k = "" then v else loadStage2 src k
    | none => loadStage2 src k
  | none => loadStage2 src k

/-- Priority 4 of `load_secrets` (app.py lines 184-194): a config-file
value is taken only `if value and not self.api_keys.get(key)`. -/
def loadStage4 (src : SecretSources) (k : SecretKey) : String :=
  match src.configFile with
  | some f => if f k ≠ "" ∧ loadStage3 src k = "" then f k else loadStage3 src k
  | none => loadStage3 src k

/-- Embedding of `SecretsManager.load_secrets` (app.py lines 144-194):
the four priority stages applied in order to an initially empty
`api_keys` dict. -/
def load_secrets (src : SecretSources) : SecretKey → String :=
  fun k => loadStage4 src k

/-- The value the hosted-platform secret store contributes for key `k`
(empty when the store is unavailable). -/
def streamlitValue (src : SecretSources) (k : SecretKey) : String :=
  match src.streamlitSecrets with
  | some f => f k
  | none => ""

/-- The value the local key-value secrets file contributes for key `k`
(empty when the file is missing, unparsable, or lacks the key). -/
def secretsFileValue (src : SecretSources) (k : SecretKey) : String :=
  match src.secretsFile with
  | some f => (f k).getD ""
  | none => ""

/-- The value the local structured config file contributes for key `k`
(empty when the file is missing or unparsable). -/
def configValue (src : SecretSources) (k : SecretKey) : String :=
  match src.configFile with
  | some f => f k
  | none => ""

/-- The values the four sources yield for key `k`, in priority order. -/
def sourceValues (src : SecretSources) (k : SecretKey) : List String :=
  [streamlitValue src k, src.envVars k, secretsFileValue src k, configValue src k]

/-- First non-empty string in a list (empty string when all are empty). -/
def firstNonEmpty : List String → String
  | [] => ""
  | v :: rest => if v ≠ "" then v else firstNonEmpty rest

/-- Keep the already-resolved value unless it is still empty. -/
def fill (cur v : String) : String :=
  if cur = "" then v else cur

theorem loadStage1_eq_fill (src : SecretSources) (k : SecretKey) :
    loadStage1 src k = fill "" (streamlitValue src k) := by
  unfold loadStage1 streamlitValue fill
  rcases src.streamlitSecrets with _ | f <;> simp

theorem loadStage2_eq_fill (src : SecretSources) (k : SecretKey) :
    loadStage2 src k = fill (loadStage1 src k) (src.envVars k) := by
  unfold loadStage2 fill
  by_cases h1 : loadStage1 src k = "" <;> by_cases h2 : src.envVars k = "" <;> simp [h1, h2]

theorem loadStage3_eq_fill (src : SecretSources) (k : SecretKey) :
    loadStage3 src k = fill (loadStage2 src k) (secretsFileValue src k) := by
  unfold loadStage3 secretsFileValue fill
  rcases src.secretsFile with _ | f
  · by_cases h : loadStage2 src k = "" <;> simp [h]
  · rcases hf : f k with _ | v <;> by_cases h : loadStage2 src k = "" <;> simp [hf, h]

theorem loadStage4_eq_fill (src : SecretSources) (k : SecretKey) :
    loadStage4 src k = fill (loadStage3 src k) (configValue src k) := by
  unfold loadStage4 configValue fill
  rcases src.configFile with _ | f
  · by_cases h : loadStage3 src k = "" <;> simp [h]
  · by_cases h1 : loadStage3 src k = "" <;> by_cases h2 : f k = "" <;> simp [h1, h2]

theorem foldl_fill_eq_firstNonEmpty (l : List String) (acc : String) :
    List.foldl fill acc l = if acc = "" then firstNonEmpty l else acc := by
  induction l generalizing acc with
  | nil => by_cases h : acc = "" <;> simp [firstNonEmpty, h]
  | cons v rest ih =>
    by_cases h : acc = "" <;> by_cases hv : v = "" <;>
      simp [fill, firstNonEmpty, h, hv, ih]

/-! ## Time-window cutoffs (app.py lines 476-486 and 544-559) -/

/-- The `time_filters` dict literal of `scrape_instagram_posts`
(app.py lines 476-482) together with the `.get(time_filter, 30)` lookup
(line 484). -/
def scrapeTimeFilters (tf : String) : Nat :=
  if tf = "Today" then 1
  else if tf = "48 Hours" then 2
  else if tf = "4 Days" then 4
  else if tf = "Week" then 7
  else if tf = "Month" then 30
  else 30

/-- The `time_filters` dict literal of `_get_demo_data`
(app.py lines 545-551) together with the `.get(time_filter, 30)` lookup
(line 553). -/
def demoTimeFilters (tf : String) : Nat :=
  if tf = "Today" then 1
  else if tf = "48 Hours" then 2
  else if tf = "4 Days" then 4
  else if tf = "Week" then 7
  else if tf = "Month" then 30
  else 30

/-- Timestamps are modelled as integer seconds; `timedelta(days=n)` is
`n * 86400` seconds. -/
def secondsPerDay : Int := 86400

/-- The `dateFrom` cutoff the live path computes and sends to the scraping
provider: `cutoff_date = datetime.now() - timedelta(days=days_back)`
(app.py lines 484-486). -/
def scrapeDateFrom (now : Int) (tf : String) : Int :=
  now - scrapeTimeFilters tf * secondsPerDay

/-- The cutoff the demo path computes: `cutoff_date = datetime.now() -
timedelta(days=days_back)` (app.py lines 553-554). -/
def demoCutoff (now : Int) (tf : String) : Int :=
  now - demoTimeFilters tf * secondsPerDay

/-- Retention predicate of the live path: the provider is asked for items
with timestamp from `dateFrom` onward, i.e. it keeps an item iff
`dateFrom <= timestamp`. -/
def liveRetains (now : Int) (tf : String) (t : Int) : Bool :=
  scrapeDateFrom now tf ≤ t

/-- Retention predicate of the demo path: `post["timestamp"] >=
cutoff_date` (app.py lines 556-559). -/
def demoRetains (now : Int) (tf : String) (t : Int) : Bool :=
  demoCutoff now tf ≤ t

end InstaAnalyzer

namespace InstaAnalyzer

/-- C1: for every logical credential key, the value resolved by
`SecretsManager.load_secrets` is the first non-empty value yielded by the
sources in the fixed order hosted-platform secret store, process
environment, local key-value secrets file, local structured config file
(so a later source never overwrites a key already resolved non-empty);
in particular when the hosted store and the secrets file yield nothing for
the key, the environment defines `X ≠ ""` and the config file defines `Y`,
the resolved value is `X`. -/
theorem load_secrets_first_nonempty_wins (src : SecretSources) (k : SecretKey)
    (X Y : String) (hX : X ≠ "")
    (hSt : streamlitValue src k = "") (hT : secretsFileValue src k = "")
    (hE : src.envVars k = X) (hY : configValue src k = Y) :
    (∀ (s : SecretSources) (q : SecretKey),
      load_secrets s q = firstNonEmpty (sourceValues s q))
    ∧ load_secrets src k = X := by
  have main : ∀ (s : SecretSources) (q : SecretKey),
      load_secrets s q = firstNonEmpty (sourceValues s q) := by
    intro s q
    have : load_secrets s q = List.foldl fill "" (sourceValues s q) := by
      show loadStage4 s q = _
      rw [loadStage4_eq_fill, loadStage3_eq_fill, loadStage2_eq_fill, loadStage1_eq_fill]
      rfl
    rw [this, foldl_fill_eq_firstNonEmpty]
    simp
  refine ⟨main, ?_⟩
  rw [main src k]
  unfold sourceValues
  rw [hSt, hT, hE, hY]
  simp [firstNonEmpty, hX]

/-- Closed witness for C1 at concrete sources: hosted store unavailable,
environment sets `apify_token` to `"X"`, secrets file missing, config file
sets it to `"Y"`; the resolved value is `"X"`. -/
theorem load_secrets_first_nonempty_wins_witness :
    load_secrets
      ⟨none, fun k => if k = SecretKey.apify_token then "X" else "", none,
        some (fun k => if k = SecretKey.apify_token then "Y" else "")⟩
      SecretKey.apify_token = "X" :=
  (load_secrets_first_nonempty_wins
    ⟨none, fun k => if k = SecretKey.apify_token then "X" else "", none,
      some (fun k => if k = SecretKey.apify_token then "Y" else "")⟩
    SecretKey.apify_token "X" "Y" (by decide) rfl rfl rfl rfl).2

end InstaAnalyzer

namespace InstaAnalyzer

/-- C2: the demo-data generator and the live-data path apply the same
cutoff rule — a record is retained iff `timestamp >= now - days(window)`
with the identical `days` mapping (`Today` to 1, `48 Hours` to 2, `4 Days`
to 4, `Week` to 7, `Month` to 30, anything else to 30) — so the retention
predicate of the demo path equals that of the live path. -/
theorem demo_and_live_cutoff_agree (tf0 : String)
    (h0 : tf0 ∉ ["Today", "48 Hours", "4 Days", "Week", "Month"]) :
    (∀ tf, demoTimeFilters tf = scrapeTimeFilters tf)
    ∧ (∀ now tf t, demoRetains now tf t = liveRetains now tf t)
    ∧ (∀ now tf t, demoRetains now tf t = decide (now - demoTimeFilters tf * secondsPerDay ≤ t))
    ∧ demoTimeFilters "Today" = 1 ∧ demoTimeFilters "48 Hours" = 2
    ∧ demoTimeFilters "4 Days" = 4 ∧ demoTimeFilters "Week" = 7
    ∧ demoTimeFilters "Month" = 30 ∧ demoTimeFilters tf0 = 30 := by
  simp only [List.mem_cons, List.not_mem_nil, or_false, not_or] at h0
  obtain ⟨h1, h2, h3, h4, h5⟩ := h0
  refine ⟨fun tf => rfl, fun now tf t => rfl, fun now tf t => rfl, rfl, rfl, rfl, rfl, rfl, ?_⟩
  simp [demoTimeFilters, h1, h2, h3, h4, h5]

/-- Closed witness for C2: the unrecognized window `"Yesterday"` maps to 30
days, and the demo and live retention predicates agree on a concrete point. -/
theorem demo_and_live_cutoff_agree_witness :
    demoTimeFilters "Yesterday" = 30
    ∧ demoRetains 1000000 "Week" 500000 = liveRetains 1000000 "Week" 500000 := by
  have h := demo_and_live_cutoff_agree "Yesterday" (by decide)
  exact ⟨h.2.2.2.2.2.2.2.2, h.2.1 1000000 "Week" 500000⟩

end InstaAnalyzer

namespace InstaAnalyzer

/-! ## Post retrieval (`InstagramAnalytics`, app.py lines 399-575) -/

/-- Characters matched by the regex class `\w` used in
`_extract_hashtags`; the embedding fixes the ASCII interpretation:
letters, digits and underscore. -/
def isWordChar (c : Char) : Bool :=
  c.isAlpha || c.isDigit || c = '_'

/-- Fuel-indexed scanner for the pattern `#` followed by one or more word
characters: at a `#` followed by at least one word character it emits the
maximal (greedy) match and resumes after it; otherwise it advances one
character.  The fuel only makes the recursion structural; one unit per
consumed character suffices. -/
def findTagsFuel : Nat → List Char → List String
  | 0, _ => []
  | _ + 1, [] => []
  | fuel + 1, c :: rest =>
    if c = '#' ∧ rest.takeWhile isWordChar ≠ [] then
      String.mk ('#' :: rest.takeWhile isWordChar) ::
        findTagsFuel fuel (rest.dropWhile isWordChar)
    else
      findTagsFuel fuel rest

/-- Left-to-right, non-overlapping, greedy matching of the pattern
`#` followed by one or more word characters, as computed by
`re.findall` in `_extract_hashtags` (app.py line 574). -/
def findTags (l : List Char) : List String :=
  findTagsFuel l.length l

/-- Embedding of `InstagramAnalytics._extract_hashtags` (app.py lines
572-575): all `#\w+` matches of the caption, truncated to the first 5. -/
def extract_hashtags (caption : String) : List String :=
  (findTags caption.data).take 5

/-- A raw item of the result set of the scraping provider, with the fields
read by `scrape_instagram_posts` (app.py lines 498-511).  Fields that the
code reads with a plain default (`id`, `ownerUsername`, `displayUrl`,
`likesCount`, `commentsCount`, `caption`, `shortCode`) are modelled
already defaulted; `videoViewCount` is `none` when the key is missing
(its default differs between the `shares` and `views` reads);
`timestamp` is `none` when missing or empty (the code then falls back to
`datetime.now()`); `videoUrl` is `""` and `sidecarMedias` is `[]` when
absent (both are used only for Python truthiness). -/
structure RawItem where
  id : String
  ownerUsername : String
  displayUrl : String
  likesCount : Nat
  commentsCount : Nat
  videoViewCount : Option Nat
  caption : String
  videoUrl : String
  sidecarMedias : List String
  shortCode : String
  timestamp : Option Int
deriving DecidableEq, Repr

/-- Embedding of `InstagramAnalytics._determine_post_type` (app.py lines
563-570); the code represents the reel kind as the string `"reels"`, the
carousel kind as `"carousels"` and the single-post kind as `"posts"`. -/
def determine_post_type (item : RawItem) : String :=
  if item.videoUrl ≠ "" then "reels"
  else if item.sidecarMedias ≠ [] then "carousels"
  else "posts"

/-- The normalized post record built per raw item (app.py lines 498-511)
and also produced by the demo generator (lines 526-541). -/
structure Post where
  id : String
  creator : String
  thumbnail : String
  likes : Nat
  comments : Nat
  shares : Nat
  views : Nat
  caption : String
  post_type : String
  url : String
  timestamp : Int
  hashtags : List String
deriving DecidableEq, Repr

/-- The `post_data` record constructed for one raw item in the result
loop of `scrape_instagram_posts` (app.py lines 498-511). -/
def normalizePost (now : Int) (item : RawItem) : Post :=
  { id := item.id
    creator := item.ownerUsername
    thumbnail := item.displayUrl
    likes := item.likesCount
    comments := item.commentsCount
    shares := item.videoViewCount.getD 0
    views := item.videoViewCount.getD (item.likesCount * 10)
    caption := item.caption
    post_type := determine_post_type item
    url := "https://instagram.com/p/" ++ item.shortCode
    timestamp := item.timestamp.getD now
    hashtags := extract_hashtags item.caption }

/-- The synthetic record of index `i` in the `mock_posts` comprehension of
`_get_demo_data` (app.py lines 526-542). -/
def mockPost (hashtags : List String) (post_type : String) (now : Int) (i : Nat) : Post :=
  { id := "post_" ++ toString i
    creator := "designer_" ++ toString (i % 10)
    thumbnail := "https://picsum.photos/300/200?random=" ++ toString i
    likes := 1500 + i * 100
    comments := 45 + i * 5
    shares := 20 + i * 2
    views := 5000 + i * 200
    caption := "Amazing " ++ hashtags.headD "design" ++
      " inspiration! Check out this innovative approach to modern design solutions."
    post_type :=
      if post_type ≠ "all" then post_type
      else ["posts", "carousels", "reels"].getD (i % 3) ""
    url := "https://instagram.com/p/mock_" ++ toString i
    timestamp := now - (i % 30 : Nat) * secondsPerDay
    hashtags := if hashtags ≠ [] then hashtags.take 3 else ["#design"] }

/-- Embedding of `InstagramAnalytics._get_demo_data` (app.py lines
524-561): `limit` synthetic records, then the time-window filter
`post["timestamp"] >= cutoff_date`. -/
def get_demo_data (hashtags : List String) (time_filter : String)
    (post_type : String) (limit : Nat) (now : Int) : List Post :=
  let mock_posts := (List.range limit).map (mockPost hashtags post_type now)
  let cutoff_date := demoCutoff now time_filter
  mock_posts.filter (fun p => cutoff_date ≤ p.timestamp)

/-- Embedding of `InstagramAnalytics.scrape_instagram_posts` (app.py lines
459-522).  `scraping_available` is the constructor flag; `remote` is the
outcome of the remote interaction of the whole try-block (actor call plus
dataset iteration): `.error e` models any raised exception with message
`e`, `.ok items` the list of dataset items.  The result pairs the
returned post list with the user-visible messages emitted
(`st.warning` / `st.error`); the function is total, so no exception
reaches the caller. -/
def scrape_instagram_posts (scraping_available : Bool)
    (remote : Except String (List RawItem)) (hashtags : List String)
    (time_filter : String) (post_type : String) (limit : Nat) (now : Int) :
    List Post × List String :=
  if ¬ scraping_available then
    (get_demo_data hashtags time_filter post_type limit now,
      ["⚠️ Apify not configured. Using demo data."])
  else
    match remote with
    | .ok items =>
      let posts_data := items.map (normalizePost now)
      let filtered :=
        if post_type ≠ "all" then
          posts_data.filter (fun p => p.post_type.toLower = post_type)
        else posts_data
      (filtered.take limit, [])
    | .error e =>
      (get_demo_data hashtags time_filter post_type limit now,
        ["❌ Scraping failed: " ++ e])

end InstaAnalyzer

namespace InstaAnalyzer

/-- C7: post-kind classification precedence in
`_determine_post_type` — a truthy `videoUrl` yields the reel kind
(string `"reels"`) regardless of the other fields; otherwise a truthy
`sidecarMedias` yields the carousel kind (`"carousels"`); otherwise the
single-post kind (`"posts"`). -/
theorem determine_post_type_precedence (item : RawItem) :
    (item.videoUrl ≠ "" → determine_post_type item = "reels")
    ∧ (item.videoUrl = "" → item.sidecarMedias ≠ [] →
        determine_post_type item = "carousels")
    ∧ (item.videoUrl = "" → item.sidecarMedias = [] →
        determine_post_type item = "posts") := by
  refine ⟨fun hv => ?_, fun hv hs => ?_, fun hv hs => ?_⟩ <;>
    simp [determine_post_type, hv] <;> simp [hs]

/-- Closed witness for C7: three concrete raw items, one per kind.  The
reel item also carries a non-empty `sidecarMedias`, checking that
`videoUrl` takes precedence. -/
theorem determine_post_type_precedence_witness :
    determine_post_type ⟨"1", "u", "", 0, 0, none, "", "v.mp4", ["m"], "s", none⟩ = "reels"
    ∧ determine_post_type ⟨"2", "u", "", 0, 0, none, "", "", ["m"], "s", none⟩ = "carousels"
    ∧ determine_post_type ⟨"3", "u", "", 0, 0, none, "", "", [], "s", none⟩ = "posts" :=
  ⟨(determine_post_type_precedence _).1 (by decide),
   (determine_post_type_precedence ⟨"2", "u", "", 0, 0, none, "", "", ["m"], "s", none⟩).2.1
      rfl (by decide),
   (determine_post_type_precedence ⟨"3", "u", "", 0, 0, none, "", "", [], "s", none⟩).2.2
      rfl rfl⟩

/-- C4: whenever the provider is configured but the remote scrape raises
(modelled by `remote = .error e`), `scrape_instagram_posts` catches the
exception, returns the synthetic demo data for the same arguments, and
surfaces the failure only as a user-visible message; the embedding is a
total function, so nothing propagates to the caller. -/
theorem scrape_failure_falls_back_to_demo (hashtags : List String)
    (time_filter post_type : String) (limit : Nat) (now : Int)
    (remote : Except String (List RawItem)) (e : String)
    (h : remote = .error e) :
    scrape_instagram_posts true remote hashtags time_filter post_type limit now
      = (get_demo_data hashtags time_filter post_type limit now,
          ["❌ Scraping failed: " ++ e])
    ∧ (scrape_instagram_posts true remote hashtags time_filter post_type limit now).2 ≠ [] := by
  subst h
  exact ⟨rfl, by simp [scrape_instagram_posts]⟩

/-- Closed witness for C4: a concrete failing scrape returns the demo data
for the same arguments together with the failure message. -/
theorem scrape_failure_falls_back_to_demo_witness :
    scrape_instagram_posts true (.error "timeout") ["#ui"] "Week" "all" 3 0
      = (get_demo_data ["#ui"] "Week" "all" 3 0, ["❌ Scraping failed: " ++ "timeout"]) :=
  (scrape_failure_falls_back_to_demo ["#ui"] "Week" "all" 3 0 (.error "timeout") "timeout" rfl).1

end InstaAnalyzer

namespace InstaAnalyzer

/-- A token of the shape `#` followed by one or more word characters. -/
def isHashtagToken (t : String) : Prop :=
  ∃ w : List Char, w ≠ [] ∧ (∀ c ∈ w, isWordChar c) ∧ t.data = '#' :: w

/-- The strings `ts` occur in `cap` in the given order, left to right and
non-overlapping: `cap` decomposes as a gap, the first token, a remainder
in which the rest occur in order. -/
def appearsInOrder (cap : List Char) : List String → Prop
  | [] => True
  | t :: ts => ∃ pre rest, cap = pre ++ t.data ++ rest ∧ appearsInOrder rest ts

theorem appearsInOrder_cons_char (c : Char) {cap : List Char} {ts : List String}
    (h : appearsInOrder cap ts) : appearsInOrder (c :: cap) ts := by
  cases ts with
  | nil => trivial
  | cons t ts =>
    obtain ⟨pre, rest, hcap, hrest⟩ := h
    exact ⟨c :: pre, rest, by simp [hcap], hrest⟩

theorem appearsInOrder_take (n : Nat) {cap : List Char} {ts : List String}
    (h : appearsInOrder cap ts) : appearsInOrder cap (ts.take n) := by
  induction ts generalizing cap n with
  | nil => simpa using h
  | cons t ts ih =>
    cases n with
    | zero => trivial
    | succ m =>
      obtain ⟨pre, rest, hcap, hrest⟩ := h
      exact ⟨pre, rest, hcap, ih m hrest⟩

theorem findTagsFuel_succ_cons (n : Nat) (c : Char) (rest : List Char) :
    findTagsFuel (n + 1) (c :: rest) =
      if c = '#' ∧ rest.takeWhile isWordChar ≠ [] then
        String.mk ('#' :: rest.takeWhile isWordChar) ::
          findTagsFuel n (rest.dropWhile isWordChar)
      else findTagsFuel n rest := rfl

theorem findTagsFuel_appearsInOrder (fuel : Nat) :
    ∀ cap : List Char, appearsInOrder cap (findTagsFuel fuel cap) := by
  induction fuel with
  | zero => intro cap; trivial
  | succ n ih =>
    intro cap
    cases cap with
    | nil => trivial
    | cons c rest =>
      rw [findTagsFuel_succ_cons]
      by_cases h : c = '#' ∧ rest.takeWhile isWordChar ≠ []
      · rw [if_pos h]
        refine ⟨[], rest.dropWhile isWordChar, ?_, ih _⟩
        simp only [List.nil_append, String.mk, List.cons_append]
        rw [h.1, List.takeWhile_append_dropWhile]
      · rw [if_neg h]
        exact appearsInOrder_cons_char c (ih rest)

theorem findTagsFuel_tokens (fuel : Nat) :
    ∀ cap : List Char, ∀ t ∈ findTagsFuel fuel cap, isHashtagToken t := by
  induction fuel with
  | zero => intro cap t ht; cases ht
  | succ n ih =>
    intro cap t ht
    cases cap with
    | nil => cases ht
    | cons c rest =>
      rw [findTagsFuel_succ_cons] at ht
      by_cases h : c = '#' ∧ rest.takeWhile isWordChar ≠ []
      · rw [if_pos h] at ht
        rcases List.mem_cons.mp ht with h1 | h1
        · refine ⟨rest.takeWhile isWordChar, h.2, ?_, by rw [h1]⟩
          intro a ha
          exact List.all_eq_true.mp List.all_takeWhile a ha
        · exact ih _ t h1
      · rw [if_neg h] at ht
        exact ih _ t ht

/-- C8: for every caption, `_extract_hashtags` returns at most 5 tokens,
each of the shape `#` followed by one or more word characters, and the
tokens appear in the caption in the same left-to-right order as their
occurrences. -/
theorem extract_hashtags_spec (caption : String) :
    (extract_hashtags caption).length ≤ 5
    ∧ (∀ t ∈ extract_hashtags caption, isHashtagToken t)
    ∧ appearsInOrder caption.data (extract_hashtags caption) := by
  refine ⟨?_, ?_, ?_⟩
  · exact List.length_take_le 5 (findTags caption.data)
  · intro t ht
    exact findTagsFuel_tokens _ _ t (List.mem_of_mem_take ht)
  · exact appearsInOrder_take 5 (findTagsFuel_appearsInOrder _ caption.data)

/-- Closed witness for C8: a concrete caption, with the extraction
evaluated and the length bound obtained from the theorem. -/
theorem extract_hashtags_spec_witness :
    extract_hashtags "Great #ui and #ux work!" = ["#ui", "#ux"]
    ∧ (extract_hashtags "Great #ui and #ux work!").length ≤ 5 :=
  ⟨by decide, (extract_hashtags_spec "Great #ui and #ux work!").1⟩


end InstaAnalyzer

namespace InstaAnalyzer

/-! ## Content classifier (`analyze_with_gemini`, app.py lines 577-614) -/

/-- The fixed-shape classification result parsed from the AI response. -/
structure Classification where
  category : String
  sentiment : String
  engagement_prediction : String
  content_quality : Nat
  trending_potential : Nat
deriving DecidableEq, Repr

/-- The default result returned when no AI credential is configured
(`if not self.ai_available`, app.py lines 579-586). -/
def defaultWhenUnavailable : Classification :=
  { category := "General"
    sentiment := "Positive"
    engagement_prediction := "Medium"
    content_quality := 75
    trending_potential := 60 }

/-- The default result returned when the AI call or the JSON parse raises
(`except Exception`, app.py lines 606-614). -/
def defaultWhenFailed : Classification :=
  { category := "General"
    sentiment := "Positive"
    engagement_prediction := "Medium"
    content_quality := 75
    trending_potential := 60 }

/-- The prompt built from caption and joined hashtags
(app.py lines 589-602). -/
def geminiPrompt (caption : String) (hashtags : List String) : String :=
  "Analyze this Instagram post: Caption: " ++ caption ++
    " Hashtags: " ++ String.intercalate ", " hashtags

/-- Embedding of `InstagramAnalytics.analyze_with_gemini` (app.py lines
577-614).  `remote prompt` models `self.model.generate_content(prompt)`
followed by `json.loads(response.text)`: `.error e` is any exception
(network, quota, malformed JSON), `.ok c` a parsed result.  The second
component of the result counts how many remote calls were issued. -/
def analyze_with_gemini (ai_available : Bool)
    (remote : String → Except String Classification)
    (caption : String) (hashtags : List String) : Classification × Nat :=
  if ¬ ai_available then
    (defaultWhenUnavailable, 0)
  else
    match remote (geminiPrompt caption hashtags) with
    | .ok c => (c, 1)
    | .error _ => (defaultWhenFailed, 1)

/-- C5: for every caption and hashtag list, the no-credential path of
the classifier and its call-failed path return identical default
results (`General` / `Positive` / `Medium` / 75 / 60), and neither path
issues more than one remote call (no retry). -/
theorem analyze_with_gemini_defaults (caption : String) (hashtags : List String)
    (remote : String → Except String Classification) (e : String)
    (hfail : remote (geminiPrompt caption hashtags) = .error e) :
    defaultWhenFailed = defaultWhenUnavailable
    ∧ analyze_with_gemini false remote caption hashtags = (defaultWhenUnavailable, 0)
    ∧ analyze_with_gemini true remote caption hashtags = (defaultWhenUnavailable, 1)
    ∧ defaultWhenUnavailable =
        { category := "General", sentiment := "Positive",
          engagement_prediction := "Medium", content_quality := 75,
          trending_potential := 60 }
    ∧ (analyze_with_gemini true remote caption hashtags).2 ≤ 1 := by
  refine ⟨rfl, rfl, ?_, rfl, ?_⟩ <;>
    simp [analyze_with_gemini, hfail, defaultWhenFailed, defaultWhenUnavailable]

/-- Closed witness for C5: a concrete always-failing remote call yields
the same default in both paths. -/
theorem analyze_with_gemini_defaults_witness :
    analyze_with_gemini false (fun _ => .error "quota") "caption" ["#ai"]
      = (defaultWhenUnavailable, 0)
    ∧ analyze_with_gemini true (fun _ => .error "quota") "caption" ["#ai"]
      = (defaultWhenUnavailable, 1) :=
  ⟨(analyze_with_gemini_defaults "caption" ["#ai"] (fun _ => .error "quota") "quota" rfl).2.1,
   (analyze_with_gemini_defaults "caption" ["#ai"] (fun _ => .error "quota") "quota" rfl).2.2.1⟩

end InstaAnalyzer

namespace InstaAnalyzer

/-- C3: with no provider configured, fetching with window `Week`, kind
filter `all` and limit 10 generates exactly 10 synthetic records before
the window filter; record `i` has likes `1500 + 100*i`, a kind cycling
through the single-post, carousel and reel kinds (code strings `"posts"`,
`"carousels"`, `"reels"`) by `i mod 3`, and timestamp `now` minus
`i mod 30` days; after the 7-day cutoff at most 10 records are returned;
and the generator output is not in general ordered by recency
(witnessed by window `Month` with limit 31). -/
theorem demo_data_week_scenario (now : Int) (i : Nat) (hi : i < 10)
    (remote : Except String (List RawItem)) :
    ((List.range 10).map (mockPost ["#design"] "all" now)).length = 10
    ∧ (scrape_instagram_posts false remote ["#design"] "Week" "all" 10 now).1
        = get_demo_data ["#design"] "Week" "all" 10 now
    ∧ ((List.range 10).map (mockPost ["#design"] "all" now))[i]?
        = some (mockPost ["#design"] "all" now i)
    ∧ (mockPost ["#design"] "all" now i).likes = 1500 + 100 * i
    ∧ (mockPost ["#design"] "all" now i).post_type
        = ["posts", "carousels", "reels"].getD (i % 3) ""
    ∧ (mockPost ["#design"] "all" now i).timestamp = now - (i % 30 : Nat) * secondsPerDay
    ∧ (get_demo_data ["#design"] "Week" "all" 10 now).length ≤ 10
    ∧ ¬ List.Pairwise (fun p q : Post => q.timestamp ≤ p.timestamp)
        (get_demo_data ["#design"] "Month" "all" 31 0) := by
  refine ⟨by simp, rfl, ?_, by simp [mockPost, Nat.mul_comm], rfl, rfl, ?_, ?_⟩
  · simp [List.getElem?_map, List.getElem?_range, hi]
  · have h1 : get_demo_data ["#design"] "Week" "all" 10 now
        = ((List.range 10).map (mockPost ["#design"] "all" now)).filter
            (fun p => decide (demoCutoff now "Week" ≤ p.timestamp)) := rfl
    rw [h1]
    simpa using List.length_filter_le _ ((List.range 10).map (mockPost ["#design"] "all" now))
  · decide

/-- Closed witness for C3: the scenario instantiated at `now = 0`,
`i = 4`: ten pre-filter records, the likes formula, the kind cycle and
the post-filter bound. -/
theorem demo_data_week_scenario_witness :
    ((List.range 10).map (mockPost ["#design"] "all" 0)).length = 10
    ∧ (mockPost ["#design"] "all" 0 4).likes = 1500 + 100 * 4
    ∧ (mockPost ["#design"] "all" 0 4).post_type = ["posts", "carousels", "reels"].getD (4 % 3) ""
    ∧ (get_demo_data ["#design"] "Week" "all" 10 0).length ≤ 10 :=
  ⟨(demo_data_week_scenario 0 4 (by decide) (.ok [])).1,
   (demo_data_week_scenario 0 4 (by decide) (.ok [])).2.2.2.1,
   (demo_data_week_scenario 0 4 (by decide) (.ok [])).2.2.2.2.1,
   (demo_data_week_scenario 0 4 (by decide) (.ok [])).2.2.2.2.2.2.1⟩

end InstaAnalyzer

namespace InstaAnalyzer

/-! ## Saving secrets (`SecretsManager.save_secrets_to_file`,
app.py lines 196-228) -/

/-- The default `app_settings` block written alongside the keys in the
structured config format (app.py lines 220-224). -/
structure AppSettings where
  debug_mode : Bool
  cache_enabled : Bool
  max_posts_per_request : Nat
deriving DecidableEq, Repr

/-- Content of a written file: plain text for the key-value and
environment formats, structured data (the `api_keys` mapping plus the
`app_settings` block serialized by `yaml.dump`) for the config format. -/
inductive FileData where
  | text : String → FileData
  | yamlDoc : List (String × String) → AppSettings → FileData
deriving DecidableEq, Repr

/-- A model filesystem: which write targets fail with an `IOError`, the
directories that exist, and the files written.  `save_secrets_to_file`
contains no `try`/`except`, so a failing write surfaces as an
exception (`Except.error`). -/
structure FS where
  writeFails : String → Bool
  dirs : List String
  files : List (String × FileData)

/-- Model of `open(path, "w")` followed by a full write: fails by raising when the
filesystem refuses the target, otherwise records the file. -/
def writeFile (path : String) (data : FileData) (fs : FS) : Except String FS :=
  if fs.writeFails path then .error "IOError"
  else .ok { fs with files := (path, data) :: fs.files }

/-- Model of `Path.mkdir(exist_ok=True)` on a directory whose parent is the
working directory: always succeeds and records the directory. -/
def mkdirExistOk (d : String) (fs : FS) : FS :=
  { fs with dirs := d :: fs.dirs }

/-- The `toml_content` accumulation (app.py lines 200-203): one
`KEY = "value"` line per non-empty value. -/
def tomlContent (secrets : List (String × String)) : String :=
  secrets.foldl
    (fun acc kv =>
      if kv.2 ≠ "" then acc ++ kv.1.toUpper ++ " = \"" ++ kv.2 ++ "\"\n" else acc)
    ""

/-- The `env_content` accumulation (app.py lines 209-212): one
`KEY=value` line per non-empty value. -/
def envContent (secrets : List (String × String)) : String :=
  secrets.foldl
    (fun acc kv => if kv.2 ≠ "" then acc ++ kv.1.toUpper ++ "=" ++ kv.2 ++ "\n" else acc)
    ""

/-- Embedding of `SecretsManager.save_secrets_to_file` (app.py lines
196-228).  The `"toml"` branch first creates the parent directory
`.streamlit`; the `"env"` and `"yaml"` branches write into the working
directory; the `"yaml"` branch writes the full `secrets_dict` (empty
values included) plus the default `app_settings` block
`{debug_mode: False, cache_enabled: True, max_posts_per_request: 100}`.
An unrecognized format matches no branch and does nothing. -/
def save_secrets_to_file (secrets : List (String × String)) (file_type : String)
    (fs : FS) : Except String FS :=
  if file_type = "toml" then
    writeFile ".streamlit/secrets.toml" (.text (tomlContent secrets))
      (mkdirExistOk ".streamlit" fs)
  else if file_type = "env" then
    writeFile ".env" (.text (envContent secrets)) fs
  else if file_type = "yaml" then
    writeFile "config.yaml" (.yamlDoc secrets ⟨false, true, 100⟩) fs
  else
    .ok fs

/-- The on-disk target of each recognized save format. -/
def saveTarget (file_type : String) : String :=
  if file_type = "toml" then ".streamlit/secrets.toml"
  else if file_type = "env" then ".env"
  else "config.yaml"

end InstaAnalyzer

namespace InstaAnalyzer

/-- C6 counterexample: `save_secrets_to_file` has no exception handler, so
on a filesystem that refuses the write of the key-value target the save
raises (`Except.error`) instead of completing best-effort, refuting
"does not raise an exception on partial write". -/
theorem save_secrets_raises_on_failed_write :
    save_secrets_to_file [("apify_token", "t")] "toml"
      ⟨fun p => p == ".streamlit/secrets.toml", [], []⟩ = .error "IOError" := rfl

/-- C6 (amended): for every credential map and each recognized format,
when the filesystem accepts the write the save succeeds; the key-value
(`"toml"`) format creates its parent directory `.streamlit` beforehand;
the structured config (`"yaml"`) format emits the default app-settings
block alongside the given keys (the full map, empty values included).
However, a failing write is not caught: the `IOError` propagates to the
caller. -/
theorem save_secrets_to_file_spec (secrets : List (String × String))
    (fs failfs : FS) (file_type : String)
    (hft : file_type ∈ ["toml", "env", "yaml"])
    (hok : fs.writeFails (saveTarget file_type) = false)
    (hfail : failfs.writeFails (saveTarget file_type) = true) :
    (∃ fs2 : FS, save_secrets_to_file secrets file_type fs = .ok fs2
      ∧ (file_type = "toml" → ".streamlit" ∈ fs2.dirs)
      ∧ (file_type = "yaml" →
          ("config.yaml", FileData.yamlDoc secrets ⟨false, true, 100⟩) ∈ fs2.files))
    ∧ save_secrets_to_file secrets file_type failfs = .error "IOError" := by
  simp only [List.mem_cons, List.not_mem_nil, or_false] at hft
  rcases hft with h | h | h <;> subst h <;>
    simp only [saveTarget, String.reduceEq, ite_true, ite_false, reduceIte] at hok hfail
  · refine ⟨⟨{ fs with
        dirs := ".streamlit" :: fs.dirs,
        files := (".streamlit/secrets.toml", .text (tomlContent secrets)) :: fs.files },
        ?_, ?_, ?_⟩, ?_⟩
    · simp [save_secrets_to_file, writeFile, mkdirExistOk, hok]
    · intro _; simp
    · intro hc; exact absurd hc (by decide)
    · simp [save_secrets_to_file, writeFile, mkdirExistOk, hfail]
  · refine ⟨⟨{ fs with files := (".env", .text (envContent secrets)) :: fs.files },
        ?_, ?_, ?_⟩, ?_⟩
    · simp [save_secrets_to_file, writeFile, hok]
    · intro hc; exact absurd hc (by decide)
    · intro hc; exact absurd hc (by decide)
    · simp [save_secrets_to_file, writeFile, hfail]
  · refine ⟨⟨{ fs with
        files := ("config.yaml", .yamlDoc secrets ⟨false, true, 100⟩) :: fs.files },
        ?_, ?_, ?_⟩, ?_⟩
    · simp [save_secrets_to_file, writeFile, hok]
    · intro hc; exact absurd hc (by decide)
    · intro _; simp
    · simp [save_secrets_to_file, writeFile, hfail]

/-- Closed witness for C6 (amended) at a concrete credential map, an
accepting and a refusing filesystem, format `"yaml"`. -/
theorem save_secrets_to_file_spec_witness :
    (∃ fs2 : FS,
      save_secrets_to_file [("gemini_api_key", "g")] "yaml" ⟨fun _ => false, [], []⟩ = .ok fs2
      ∧ (("yaml" : String) = "toml" → ".streamlit" ∈ fs2.dirs)
      ∧ (("yaml" : String) = "yaml" →
          ("config.yaml", FileData.yamlDoc [("gemini_api_key", "g")] ⟨false, true, 100⟩)
            ∈ fs2.files))
    ∧ save_secrets_to_file [("gemini_api_key", "g")] "yaml" ⟨fun _ => true, [], []⟩
        = .error "IOError" :=
  save_secrets_to_file_spec [("gemini_api_key", "g")]
    ⟨fun _ => false, [], []⟩ ⟨fun _ => true, [], []⟩ "yaml" (by decide) rfl rfl

end InstaAnalyzer

namespace InstaAnalyzer

/-! ## Session store: sorting and bookmarks (app.py lines 616-623,
716-726) -/

/-- The sort key of each criterion in the `sort_by` dispatch of `main`
(app.py lines 717-726): likes, comments, shares, views, or timestamp for
`Recent`. -/
def sortKey (sort_by : String) (p : Post) : Int :=
  if sort_by = "Likes" then p.likes
  else if sort_by = "Comments" then p.comments
  else if sort_by = "Shares" then p.shares
  else if sort_by = "Views" then p.views
  else p.timestamp

/-- Model of `posts.sort(key=..., reverse=True)`: the stable Python sort, descending
by the key, embedded as the stable `List.mergeSort` with the
"key not below" comparator. -/
def pySortDesc (key : Post → Int) (l : List Post) : List Post :=
  l.mergeSort (fun a b => decide (key b ≤ key a))

/-- The `sort_by` dispatch of `main` (app.py lines 716-726): each
recognized criterion sorts the working list descending by its key; any
other value leaves the list unchanged. -/
def sortPosts (sort_by : String) (posts : List Post) : List Post :=
  if sort_by = "Likes" then pySortDesc (fun p => (p.likes : Int)) posts
  else if sort_by = "Comments" then pySortDesc (fun p => (p.comments : Int)) posts
  else if sort_by = "Shares" then pySortDesc (fun p => (p.shares : Int)) posts
  else if sort_by = "Views" then pySortDesc (fun p => (p.views : Int)) posts
  else if sort_by = "Recent" then pySortDesc (fun p => p.timestamp) posts
  else posts

theorem pySortDesc_trans (key : Post → Int) :
    ∀ a b c : Post, decide (key b ≤ key a) → decide (key c ≤ key b) →
      decide (key c ≤ key a) := by
  intro a b c h1 h2
  simp only [decide_eq_true_eq] at h1 h2 ⊢
  omega

theorem pySortDesc_total (key : Post → Int) :
    ∀ a b : Post, decide (key b ≤ key a) || decide (key a ≤ key b) := by
  intro a b
  rcases Int.le_total (key b) (key a) with h | h <;> simp [h]

theorem pySortDesc_sorted (key : Post → Int) (l : List Post) :
    (pySortDesc key l).Pairwise (fun a b => key b ≤ key a) := by
  have h := @List.sorted_mergeSort Post (fun a b : Post => decide (key b ≤ key a))
    (pySortDesc_trans key) (pySortDesc_total key) l
  exact h.imp (fun hab => by simpa using hab)

theorem pySortDesc_perm (key : Post → Int) (l : List Post) :
    (pySortDesc key l).Perm l :=
  List.mergeSort_perm l _

theorem pySortDesc_filter_stable (key : Post → Int) (l : List Post) (v : Int) :
    (pySortDesc key l).filter (fun p => key p == v)
      = l.filter (fun p => key p == v) := by
  have hall : ∀ a ∈ l.filter (fun p => key p == v), (fun p => key p == v) a = true :=
    fun a ha => (List.mem_filter.mp ha).2
  have hpw : (l.filter (fun p => key p == v)).Pairwise
      (fun a b => decide (key b ≤ key a)) := by
    refine List.pairwise_of_forall_mem_list ?_
    intro a ha b hb
    have h1 := hall a ha
    have h2 := hall b hb
    simp only [beq_iff_eq] at h1 h2
    simp [h1, h2]
  have hsub : List.Sublist (l.filter (fun p => key p == v)) (pySortDesc key l) :=
    List.sublist_mergeSort (pySortDesc_trans key) (pySortDesc_total key) hpw
      (List.filter_sublist l)
  have hsubf : List.Sublist (l.filter (fun p => key p == v))
      ((pySortDesc key l).filter (fun p => key p == v)) := by
    have := hsub.filter (fun p => key p == v)
    rwa [List.filter_eq_self.mpr hall] at this
  have hperm : ((pySortDesc key l).filter (fun p => key p == v)).Perm
      (l.filter (fun p => key p == v)) :=
    (pySortDesc_perm key l).filter _
  exact (hsubf.eq_of_length hperm.length_eq.symm).symm

/-- C9: for every working result list and each sort criterion (`Likes`,
`Comments`, `Shares`, `Views`, `Recent`), the sort reorders the list
descending by the key of that criterion, is a permutation of the input, and is
stable: records with equal sort keys keep their relative order (filtering
the sorted list to any key value yields exactly the input filtered to
that value, in the original order). -/
theorem sortPosts_desc_stable (sort_by : String) (posts : List Post)
    (h : sort_by ∈ ["Likes", "Comments", "Shares", "Views", "Recent"]) :
    (sortPosts sort_by posts).Pairwise
        (fun a b => sortKey sort_by b ≤ sortKey sort_by a)
    ∧ (sortPosts sort_by posts).Perm posts
    ∧ ∀ v : Int, (sortPosts sort_by posts).filter (fun p => sortKey sort_by p == v)
        = posts.filter (fun p => sortKey sort_by p == v) := by
  simp only [List.mem_cons, List.not_mem_nil, or_false] at h
  rcases h with h | h | h | h | h <;> subst h <;>
    simp only [sortPosts, sortKey, String.reduceEq, ite_true, ite_false, reduceIte] <;>
    exact ⟨pySortDesc_sorted _ posts, pySortDesc_perm _ posts,
      fun v => pySortDesc_filter_stable _ posts v⟩

end InstaAnalyzer

namespace InstaAnalyzer

/-- Closed witness for C9: sorting a concrete two-record list with equal
likes; stability keeps the original relative order in the filtered view,
and the sorted list is a permutation of the input. -/
theorem sortPosts_desc_stable_witness :
    (sortPosts "Likes"
        [⟨"a", "u1", "t", 5, 0, 0, 0, "c", "posts", "u", 1, []⟩,
         ⟨"b", "u2", "t", 5, 0, 0, 0, "c", "posts", "u", 2, []⟩]).Perm
      [⟨"a", "u1", "t", 5, 0, 0, 0, "c", "posts", "u", 1, []⟩,
       ⟨"b", "u2", "t", 5, 0, 0, 0, "c", "posts", "u", 2, []⟩]
    ∧ (sortPosts "Likes"
        [⟨"a", "u1", "t", 5, 0, 0, 0, "c", "posts", "u", 1, []⟩,
         ⟨"b", "u2", "t", 5, 0, 0, 0, "c", "posts", "u", 2, []⟩]).filter
          (fun p => sortKey "Likes" p == 5)
      = [⟨"a", "u1", "t", 5, 0, 0, 0, "c", "posts", "u", 1, []⟩,
         ⟨"b", "u2", "t", 5, 0, 0, 0, "c", "posts", "u", 2, []⟩].filter
          (fun p => sortKey "Likes" p == 5) :=
  ⟨(sortPosts_desc_stable "Likes"
      [⟨"a", "u1", "t", 5, 0, 0, 0, "c", "posts", "u", 1, []⟩,
       ⟨"b", "u2", "t", 5, 0, 0, 0, "c", "posts", "u", 2, []⟩] (by decide)).2.1,
   (sortPosts_desc_stable "Likes"
      [⟨"a", "u1", "t", 5, 0, 0, 0, "c", "posts", "u", 1, []⟩,
       ⟨"b", "u2", "t", 5, 0, 0, 0, "c", "posts", "u", 2, []⟩] (by decide)).2.2 5⟩

/-- Embedding of `InstagramAnalytics.bookmark_post` (app.py lines
616-623) acting on the session bookmark list: append the id when absent,
`list.remove` (erase the first occurrence) when present. -/
def bookmark_post (bookmarks : List String) (post_id : String) : List String :=
  if post_id ∉ bookmarks then bookmarks ++ [post_id]
  else bookmarks.erase post_id

/-- C10: on every duplicate-free bookmark state, `bookmark_post` adds an
absent id at the end and removes a present id; it keeps the state
duplicate-free; and toggling the same id twice restores exactly the
original bookmark set (same members, as a permutation of the original
list). -/
theorem bookmark_post_toggle (l : List String) (a : String) (hnd : l.Nodup) :
    (a ∉ l → bookmark_post l a = l ++ [a])
    ∧ (a ∈ l → bookmark_post l a = l.erase a)
    ∧ (bookmark_post l a).Nodup
    ∧ (bookmark_post (bookmark_post l a) a).Perm l
    ∧ (∀ x, x ∈ bookmark_post (bookmark_post l a) a ↔ x ∈ l) := by
  by_cases h : a ∈ l
  · have h1 : bookmark_post l a = l.erase a := by simp [bookmark_post, h]
    have hnotmem : a ∉ l.erase a := fun hc => ((hnd.mem_erase_iff).mp hc).1 rfl
    have h2 : bookmark_post (l.erase a) a = l.erase a ++ [a] := by
      simp [bookmark_post, hnotmem]
    have hperm : ((l.erase a) ++ [a]).Perm l :=
      (List.perm_append_singleton a (l.erase a)).trans (List.perm_cons_erase h).symm
    refine ⟨fun hc => absurd h hc, fun _ => h1, ?_, ?_, ?_⟩
    · rw [h1]; exact hnd.erase a
    · rw [h1, h2]; exact hperm
    · intro x; rw [h1, h2]; exact hperm.mem_iff
  · have h1 : bookmark_post l a = l ++ [a] := by simp [bookmark_post, h]
    have hmem : a ∈ l ++ [a] := by simp
    have h2 : bookmark_post (l ++ [a]) a = l := by
      simp [bookmark_post, hmem, List.erase_append_right [a] h]
    refine ⟨fun _ => h1, fun hc => absurd hc h, ?_, ?_, ?_⟩
    · rw [h1]
      simp [List.nodup_append, hnd, h]
    · rw [h1, h2]
    · intro x; rw [h1, h2]

/-- Closed witness for C10: toggling a present id removes it, toggling an
absent id appends it, and a double toggle restores the set. -/
theorem bookmark_post_toggle_witness :
    bookmark_post ["p1"] "p2" = ["p1"] ++ ["p2"]
    ∧ bookmark_post ["p1", "p2"] "p2" = ["p1", "p2"].erase "p2"
    ∧ (bookmark_post (bookmark_post ["p1", "p2"] "p2") "p2").Perm ["p1", "p2"] :=
  ⟨(bookmark_post_toggle ["p1"] "p2" (by decide)).1 (by decide),
   (bookmark_post_toggle ["p1", "p2"] "p2" (by decide)).2.1 (by decide),
   (bookmark_post_toggle ["p1", "p2"] "p2" (by decide)).2.2.2.1⟩

end InstaAnalyzer
